import Mathlib

/-!
Webcam capture widget (`staticfiles/core/js/webcam.js`).

A shallow embedding of the four functions of `webcam.js` (`startWebcam`,
`stopWebcam`, `captureImage`, `retakeImage`) together with the two promise
handlers that `startWebcam` registers on `getUserMedia`.

The elements of the page are looked up by identifier on every call and are assumed
to exist.  The browser is modelled only as far as the script observes it:

* the streams handed out by `getUserMedia` live in a heap (`streams`), and a
  stream handle is an index into that heap, so that the module variable
  `stream` and the `srcObject` of the video element may alias the same stream;
* a `getUserMedia` promise that has not been settled yet is counted in
  `pending`; every such promise carries the same two handlers;
* `canvas.toDataURL('image/jpeg')` yields `data:,` for a canvas without
  pixels and `data:image/jpeg;base64,` followed by the payload of the encoder
  otherwise; the encoder itself is a parameter.
-/

namespace Webcam

/-! ## Data model -/

/-- The two values of `style.display` that the script writes. -/
inductive Display where
  | none
  | block
  deriving DecidableEq, Repr

/-- The `readyState` of a media stream track. -/
inductive ReadyState where
  | live
  | ended
  deriving DecidableEq, Repr

/-- A track of a media stream. -/
structure MediaStreamTrack where
  readyState : ReadyState
  deriving DecidableEq, Repr

/-- A media stream as handed out by `getUserMedia`. -/
structure MediaStream where
  tracks : List MediaStreamTrack
  deriving DecidableEq, Repr

/-- What `captureImage` reads from the video element: the dimensions and the
pixels of the frame displayed at the time of the call. -/
structure VideoFrame where
  videoWidth : Nat
  videoHeight : Nat
  pixels : List Nat
  deriving DecidableEq, Repr

/-- The offscreen canvas created by `captureImage`. -/
structure Canvas where
  width : Nat
  height : Nat
  bitmap : List Nat
  deriving DecidableEq, Repr

/-- The JPEG encoder of the platform: the base64 payload for a bitmap of the
given width and height. -/
abbrev Encoder := Nat → Nat → List Nat → String

/-- The state the script reads and writes.

* `stream`, `videoElement`: the two module variables (`videoElement` records
  whether the variable is non-null; when it is, it refers to `#webcam`);
* `streams`: every stream handed out by `getUserMedia` so far;
* `pending`: the number of `getUserMedia` promises not yet settled;
* `webcamSrcObject`, `webcamDisplay`: the video element `#webcam`;
* `previewSrc`, `previewDisplay`: the image element `#previewImage`;
* `startDisplay`, `captureDisplay`, `retakeDisplay`: the three buttons;
* `imageData`: the value of the hidden field `#profile_image_data`;
* `alerts`: the number of `alert` dialogs shown so far. -/
structure Widget where
  stream : Option Nat
  videoElement : Bool
  streams : List MediaStream
  pending : Nat
  webcamSrcObject : Option Nat
  webcamDisplay : Display
  previewSrc : String
  previewDisplay : Display
  startDisplay : Display
  captureDisplay : Display
  retakeDisplay : Display
  imageData : String
  alerts : Nat
  deriving DecidableEq, Repr

/-! ## Platform -/

/-- The call `track.stop()`. -/
def MediaStreamTrack.stop (_t : MediaStreamTrack) : MediaStreamTrack :=
  { readyState := ReadyState.ended }

/-- The statement `stream.getTracks().forEach(track => track.stop())`. -/
def MediaStream.stopTracks (m : MediaStream) : MediaStream :=
  { tracks := m.tracks.map MediaStreamTrack.stop }

/-- A stream is live while one of its tracks has not been stopped. -/
def MediaStream.isLive (m : MediaStream) : Bool :=
  m.tracks.any (fun t => decide (t.readyState = ReadyState.live))

/-- A stream as `getUserMedia` delivers it: all its tracks are live. -/
def freshStream (tracks : Nat) : MediaStream :=
  { tracks := List.replicate tracks { readyState := ReadyState.live } }

/-- Stop the tracks of the stream behind handle `i`. -/
def stopAt : List MediaStream → Nat → List MediaStream
  | [], _ => []
  | m :: ms, 0 => m.stopTracks :: ms
  | m :: ms, i + 1 => m :: stopAt ms i

/-- The call `canvas.getContext('2d').drawImage(video, 0, 0, canvas.width,
canvas.height)` on a canvas that has the dimensions of the video. -/
def drawImage (video : VideoFrame) : Canvas :=
  { width := video.videoWidth, height := video.videoHeight, bitmap := video.pixels }

/-- The call `canvas.toDataURL('image/jpeg')`. -/
def toDataURL (enc : Encoder) (canvas : Canvas) : String :=
  if canvas.width = 0 ∨ canvas.height = 0 then "data:,"
  else "data:image/jpeg;base64," ++ enc canvas.width canvas.height canvas.bitmap

/-- The number of acquired streams that still have a track that has not been
stopped. -/
def liveStreams (s : Widget) : Nat :=
  s.streams.countP MediaStream.isLive

/-! ## The script -/

/-- The rejection handler of `startWebcam` (lines 23-26): a console message
and a blocking `alert`. -/
def catchHandler (s : Widget) : Widget :=
  { s with alerts := s.alerts + 1 }

/-- The fulfilment handler of `startWebcam` (lines 14-22), called with the
handle of the delivered stream.  The handler writes through the module
variable `videoElement`; were that variable null, line 16 would throw after
line 15 has run, and the promise chain would continue in the rejection
handler. -/
def thenHandler (s : Widget) (mediaStream : Nat) : Widget :=
  let s1 := { s with stream := some mediaStream }
  if s1.videoElement then
    { s1 with
      webcamSrcObject := s1.stream
      webcamDisplay := Display.block
      previewDisplay := Display.none
      startDisplay := Display.none
      captureDisplay := Display.block
      retakeDisplay := Display.none }
  else catchHandler s1

/-- The synchronous part of `startWebcam` (lines 5-13): the module variable
`videoElement` is set and a camera request is issued. -/
def startWebcam (s : Widget) : Widget :=
  { s with videoElement := true, pending := s.pending + 1 }

/-- The platform fulfils one outstanding camera request with a new stream of
`tracks` tracks; without an outstanding request nothing happens. -/
def resolveFulfilled (s : Widget) (tracks : Nat) : Widget :=
  if s.pending = 0 then s
  else
    thenHandler
      { s with pending := s.pending - 1, streams := s.streams ++ [freshStream tracks] }
      s.streams.length

/-- The platform rejects one outstanding camera request; without an
outstanding request nothing happens. -/
def resolveRejected (s : Widget) : Widget :=
  if s.pending = 0 then s
  else catchHandler { s with pending := s.pending - 1 }

/-- The function `stopWebcam` (lines 29-37). -/
def stopWebcam (s : Widget) : Widget :=
  let s1 :=
    match s.stream with
    | some i => { s with streams := stopAt s.streams i, stream := Option.none }
    | Option.none => s
  if s1.videoElement then { s1 with webcamSrcObject := Option.none } else s1

/-- Lines 40-65 of `captureImage`: everything before the call of
`stopWebcam`. -/
def captureWrites (enc : Encoder) (s : Widget) (video : VideoFrame) : Widget :=
  let canvas := drawImage video
  let imageData := toDataURL enc canvas
  { s with
    previewSrc := imageData
    previewDisplay := Display.block
    webcamDisplay := Display.none
    imageData := imageData
    captureDisplay := Display.none
    retakeDisplay := Display.block }

/-- The function `captureImage` (lines 39-69); `video` is the frame the video
element displays when the function is called. -/
def captureImage (enc : Encoder) (s : Widget) (video : VideoFrame) : Widget :=
  stopWebcam (captureWrites enc s video)

/-- The function `retakeImage` (lines 71-89). -/
def retakeImage (s : Widget) : Widget :=
  let s1 := { s with imageData := "", previewSrc := "", previewDisplay := Display.none }
  let s2 := startWebcam s1
  { s2 with captureDisplay := Display.block, retakeDisplay := Display.none }

/-! ## Event sequences -/

/-- What can happen to the widget: a call of one of the four functions, or
the platform settling an outstanding camera request. -/
inductive Event where
  | start
  | resolveOk (tracks : Nat)
  | resolveErr
  | stop
  | capture (video : VideoFrame)
  | retake
  deriving DecidableEq, Repr

/-- One event. -/
def step (enc : Encoder) (s : Widget) : Event → Widget
  | Event.start => startWebcam s
  | Event.resolveOk tracks => resolveFulfilled s tracks
  | Event.resolveErr => resolveRejected s
  | Event.stop => stopWebcam s
  | Event.capture video => captureImage enc s video
  | Event.retake => retakeImage s

/-- A sequence of events, from left to right. -/
def run (enc : Encoder) (s : Widget) (events : List Event) : Widget :=
  events.foldl (step enc) s

/-- The page before the first click: nothing acquired, nothing requested,
only the start control shown. -/
def idle : Widget :=
  { stream := Option.none
    videoElement := false
    streams := []
    pending := 0
    webcamSrcObject := Option.none
    webcamDisplay := Display.none
    previewSrc := ""
    previewDisplay := Display.none
    startDisplay := Display.block
    captureDisplay := Display.none
    retakeDisplay := Display.none
    imageData := ""
    alerts := 0 }

/-- An encoder for examples: the payload tells apart frames by their width. -/
def sampleEncoder : Encoder :=
  fun w _ _ => if w = 1 then "QQ==" else "Qg=="

/-- A rendered frame of two by two pixels. -/
def sampleFrame : VideoFrame :=
  { videoWidth := 2, videoHeight := 2, pixels := [0, 0, 0, 0] }

/-- Every call of `startWebcam`, directly or through `retakeImage`, is made
while no camera request is outstanding and no stream is held. -/
def startsWhenReleased (enc : Encoder) : Widget → List Event → Bool
  | _, [] => true
  | s, e :: es =>
    (if e = Event.start ∨ e = Event.retake then
        decide (s.pending = 0 ∧ s.stream = Option.none)
      else true)
      && startsWhenReleased enc (step enc s e) es

/-- Every direct call of `startWebcam` is made while the hidden field is
empty, and every call of `captureImage` while no camera request is
outstanding. -/
def capturesWhenSettled (enc : Encoder) : Widget → List Event → Bool
  | _, [] => true
  | s, e :: es =>
    (match e with
      | Event.start => decide (s.imageData = "")
      | Event.capture _ => decide (s.pending = 0)
      | _ => true)
      && capturesWhenSettled enc (step enc s e) es

/-- Every live stream is the held one, and a camera request is outstanding
only while no stream is held; at most one request is outstanding. -/
def LiveIsHeld (s : Widget) : Prop :=
  s.pending ≤ 1 ∧ (0 < s.pending → s.stream = Option.none) ∧
    ∀ (j : Nat) (m : MediaStream),
      s.streams[j]? = some m → m.isLive = true → s.stream = some j

/-- A filled hidden field goes with a visible preview, a hidden video and no
outstanding camera request. -/
def CaptureIsSelected (s : Widget) : Prop :=
  s.imageData ≠ "" →
    s.previewDisplay = Display.block ∧ s.webcamDisplay = Display.none ∧ s.pending = 0

/-! ## Auxiliary facts -/

theorem stopTracks_not_live (m : MediaStream) : m.stopTracks.isLive = false := by
  simp [MediaStream.stopTracks, MediaStream.isLive, MediaStreamTrack.stop]

theorem getElem?_stopAt (l : List MediaStream) (i j : Nat) :
    (stopAt l i)[j]? = if j = i then l[j]?.map MediaStream.stopTracks else l[j]? := by
  induction l generalizing i j with
  | nil => simp [stopAt]
  | cons m ms ih =>
    cases i with
    | zero =>
      cases j with
      | zero => simp [stopAt]
      | succ j => simp [stopAt]
    | succ i =>
      cases j with
      | zero => simp [stopAt]
      | succ j => simp [stopAt, ih]

theorem length_stopAt (l : List MediaStream) (i : Nat) :
    (stopAt l i).length = l.length := by
  induction l generalizing i with
  | nil => simp [stopAt]
  | cons m ms ih => cases i <;> simp [stopAt, ih]

theorem run_nil (enc : Encoder) (s : Widget) : run enc s [] = s := rfl

theorem run_cons (enc : Encoder) (s : Widget) (e : Event) (es : List Event) :
    run enc s (e :: es) = run enc (step enc s e) es := rfl

/-- No event makes the video and the preview visible together. -/
theorem step_not_both (enc : Encoder) (s : Widget) (e : Event)
    (h : ¬ (s.webcamDisplay = Display.block ∧ s.previewDisplay = Display.block)) :
    ¬ ((step enc s e).webcamDisplay = Display.block ∧
        (step enc s e).previewDisplay = Display.block) := by
  cases e with
  | start => simpa [step, startWebcam] using h
  | resolveOk tracks =>
    simp only [step, resolveFulfilled, thenHandler, catchHandler]
    split
    · exact h
    · split
      · simp
      · simpa using h
  | resolveErr =>
    simp only [step, resolveRejected, catchHandler]
    split
    · exact h
    · simpa using h
  | stop =>
    simp only [step, stopWebcam]
    cases s.stream <;> simp only [] <;> split <;> simpa using h
  | capture video =>
    simp only [step, captureImage, captureWrites, stopWebcam]
    cases s.stream <;> simp only [] <;> split <;> simp
  | retake => simp [step, retakeImage, startWebcam]

/-- A list in which every live stream sits at one index has at most one
live stream. -/
theorem countP_isLive_le_one (l : List MediaStream) (i : Nat)
    (h : ∀ (j : Nat) (m : MediaStream), l[j]? = some m → m.isLive = true → j = i) :
    l.countP MediaStream.isLive ≤ 1 := by
  induction l generalizing i with
  | nil => simp
  | cons m ms ih =>
    by_cases hm : m.isLive = true
    · have hi : 0 = i := h 0 m (by simp) hm
      have hz : ms.countP MediaStream.isLive = 0 := by
        apply List.countP_eq_zero.mpr
        intro x hx hlive
        obtain ⟨j, hj⟩ := List.getElem?_of_mem hx
        have := h (j + 1) x (by simpa using hj) hlive
        omega
      simp [List.countP_cons, hm, hz]
    · have hle := ih (i - 1) (by
        intro j x hj hx
        have := h (j + 1) x (by simpa using hj) hx
        omega)
      simpa [List.countP_cons, hm] using hle

theorem liveStreams_le_one (s : Widget) (h : LiveIsHeld s) : liveStreams s ≤ 1 := by
  obtain ⟨_, _, h3⟩ := h
  cases hs : s.stream with
  | none =>
    have hz : s.streams.countP MediaStream.isLive = 0 := by
      apply List.countP_eq_zero.mpr
      intro x hx hlive
      obtain ⟨j, hj⟩ := List.getElem?_of_mem hx
      have := h3 j x hj hlive
      rw [hs] at this
      cases this
    simp [liveStreams, hz]
  | some i =>
    apply countP_isLive_le_one s.streams i
    intro j m hj hm
    have := h3 j m hj hm
    rw [hs] at this
    exact (Option.some.inj this).symm

theorem stopWebcam_liveIsHeld (s : Widget) (h : LiveIsHeld s) :
    LiveIsHeld (stopWebcam s) := by
  obtain ⟨h1, h2, h3⟩ := h
  have hpend : (stopWebcam s).pending = s.pending := by
    simp only [stopWebcam]
    cases s.stream <;> simp only [] <;> split <;> rfl
  have hstream : (stopWebcam s).stream = Option.none := by
    simp only [stopWebcam]
    cases hs : s.stream <;> simp only [] <;> split <;> simp [hs]
  refine ⟨by omega, fun _ => hstream, ?_⟩
  intro j m hj hm
  exfalso
  cases hs : s.stream with
  | none =>
    have hst : (stopWebcam s).streams = s.streams := by
      simp only [stopWebcam, hs]
      split <;> rfl
    rw [hst] at hj
    have := h3 j m hj hm
    rw [hs] at this
    cases this
  | some i =>
    have hst : (stopWebcam s).streams = stopAt s.streams i := by
      simp only [stopWebcam, hs]
      split <;> rfl
    rw [hst, getElem?_stopAt] at hj
    by_cases hji : j = i
    · rw [if_pos hji] at hj
      cases hx : s.streams[j]? with
      | none => rw [hx] at hj; simp at hj
      | some x =>
        rw [hx] at hj
        simp only [Option.map_some', Option.some.injEq] at hj
        rw [← hj, stopTracks_not_live] at hm
        cases hm
    · rw [if_neg hji] at hj
      have := h3 j m hj hm
      rw [hs] at this
      exact hji (Option.some.inj this).symm

theorem captureWrites_liveIsHeld (enc : Encoder) (s : Widget) (video : VideoFrame)
    (h : LiveIsHeld s) : LiveIsHeld (captureWrites enc s video) := h

theorem step_liveIsHeld (enc : Encoder) (s : Widget) (e : Event) (h : LiveIsHeld s)
    (hg : (if e = Event.start ∨ e = Event.retake then
            decide (s.pending = 0 ∧ s.stream = Option.none) else true) = true) :
    LiveIsHeld (step enc s e) := by
  cases e with
  | start =>
    simp at hg
    obtain ⟨h1, h2, h3⟩ := h
    refine ⟨?_, fun _ => hg.2, h3⟩
    simp [step, startWebcam, hg.1]
  | retake =>
    simp at hg
    obtain ⟨h1, h2, h3⟩ := h
    refine ⟨?_, fun _ => hg.2, h3⟩
    simp [step, retakeImage, startWebcam, hg.1]
  | resolveErr =>
    obtain ⟨h1, h2, h3⟩ := h
    simp only [step, resolveRejected, catchHandler]
    split
    · exact ⟨h1, h2, h3⟩
    · refine ⟨?_, ?_, h3⟩
      · simp only []; omega
      · intro hp; simp only [] at hp; omega
  | stop => exact stopWebcam_liveIsHeld s h
  | capture video =>
    exact stopWebcam_liveIsHeld _ (captureWrites_liveIsHeld enc s video h)
  | resolveOk tracks =>
    obtain ⟨h1, h2, h3⟩ := h
    simp only [step, resolveFulfilled]
    split
    · exact ⟨h1, h2, h3⟩
    · rename_i hp
      have hnone : s.stream = Option.none := h2 (Nat.pos_of_ne_zero hp)
      have hstream : ∀ t : Widget, (thenHandler t s.streams.length).stream
          = some s.streams.length := by
        intro t; simp only [thenHandler, catchHandler]; split <;> rfl
      have hstreams : ∀ t : Widget, (thenHandler t s.streams.length).streams
          = t.streams := by
        intro t; simp only [thenHandler, catchHandler]; split <;> rfl
      have hpending : ∀ t : Widget, (thenHandler t s.streams.length).pending
          = t.pending := by
        intro t; simp only [thenHandler, catchHandler]; split <;> rfl
      refine ⟨?_, ?_, ?_⟩
      · rw [hpending]; simp only []; omega
      · intro hp2; rw [hpending] at hp2; simp only [] at hp2; omega
      · intro j m hj hm
        rw [hstream]
        rw [hstreams] at hj
        simp only [] at hj
        by_cases hlt : j < s.streams.length
        · rw [List.getElem?_append_left hlt] at hj
          have := h3 j m hj hm
          rw [hnone] at this
          cases this
        · have hle : s.streams.length ≤ j := Nat.le_of_not_lt hlt
          rw [List.getElem?_append_right hle] at hj
          have hj0 : j - s.streams.length = 0 := by
            by_contra hne
            obtain ⟨k, hk⟩ := Nat.exists_eq_succ_of_ne_zero hne
            rw [hk] at hj
            simp at hj
          have : j = s.streams.length := by omega
          rw [this]

theorem step_captureIsSelected (enc : Encoder) (s : Widget) (e : Event)
    (h : CaptureIsSelected s)
    (hg : (match e with
            | Event.start => decide (s.imageData = "")
            | Event.capture _ => decide (s.pending = 0)
            | _ => true) = true) :
    CaptureIsSelected (step enc s e) := by
  cases e with
  | start =>
    simp at hg
    intro hne
    exact absurd hg hne
  | retake =>
    intro hne
    exact absurd rfl hne
  | stop =>
    intro hne
    have hsame : (stopWebcam s).imageData = s.imageData ∧
        (stopWebcam s).previewDisplay = s.previewDisplay ∧
        (stopWebcam s).webcamDisplay = s.webcamDisplay ∧
        (stopWebcam s).pending = s.pending := by
      simp only [stopWebcam]
      cases s.stream <;> simp only [] <;> split <;> simp
    simp only [step] at hne ⊢
    rw [hsame.1] at hne
    rw [hsame.2.1, hsame.2.2.1, hsame.2.2.2]
    exact h hne
  | capture video =>
    simp at hg
    intro _
    simp only [step, captureImage, captureWrites, stopWebcam]
    cases s.stream <;> simp only [] <;> split <;> simp [hg]
  | resolveErr =>
    simp only [step, resolveRejected, catchHandler]
    split
    · exact h
    · rename_i hp
      intro hne
      simp only [] at hne
      exact absurd (h hne).2.2 hp
  | resolveOk tracks =>
    simp only [step, resolveFulfilled]
    split
    · exact h
    · rename_i hp
      intro hne
      have himg : ∀ t : Widget, (thenHandler t s.streams.length).imageData
          = t.imageData := by
        intro t; simp only [thenHandler, catchHandler]; split <;> rfl
      rw [himg] at hne
      simp only [] at hne
      exact absurd (h hne).2.2 hp

/-! ## The claims -/

/-- C2: in every state reached from a state with the video and the preview
hidden by any sequence of Start capture, request resolutions, Stop capture,
Capture frame and Retake, the live video surface and the static preview are
not both visible. -/
theorem video_preview_never_both_visible (enc : Encoder) (s : Widget)
    (events : List Event)
    (hv : s.webcamDisplay = Display.none) (hp : s.previewDisplay = Display.none) :
    ¬ ((run enc s events).webcamDisplay = Display.block ∧
        (run enc s events).previewDisplay = Display.block) := by
  have key : ∀ (es : List Event) (t : Widget),
      ¬ (t.webcamDisplay = Display.block ∧ t.previewDisplay = Display.block) →
      ¬ ((run enc t es).webcamDisplay = Display.block ∧
          (run enc t es).previewDisplay = Display.block) := by
    intro es
    induction es with
    | nil => intro t ht; simpa [run_nil] using ht
    | cons e es ih =>
      intro t ht
      rw [run_cons]
      exact ih _ (step_not_both enc t e ht)
  exact key events s (by rw [hv, hp]; decide)

theorem video_preview_never_both_visible_witness :
    ¬ ((run sampleEncoder idle
          [Event.start, Event.resolveOk 1, Event.capture sampleFrame, Event.retake,
            Event.capture sampleFrame, Event.resolveOk 1]).webcamDisplay = Display.block ∧
        (run sampleEncoder idle
          [Event.start, Event.resolveOk 1, Event.capture sampleFrame, Event.retake,
            Event.capture sampleFrame, Event.resolveOk 1]).previewDisplay = Display.block) :=
  video_preview_never_both_visible sampleEncoder idle _ rfl rfl

/-- C4: Stop capture twice in a row yields the same state as Stop capture
once; the second call changes neither the track states, the held handle nor
the stream bound to the video surface, and on a state with no stream held
Stop capture changes nothing but the stream bound to the video surface. -/
theorem stopWebcam_idempotent (s : Widget) :
    stopWebcam (stopWebcam s) = stopWebcam s ∧
    (stopWebcam (stopWebcam s)).streams = (stopWebcam s).streams ∧
    (stopWebcam (stopWebcam s)).stream = (stopWebcam s).stream ∧
    (stopWebcam (stopWebcam s)).webcamSrcObject = (stopWebcam s).webcamSrcObject ∧
    (s.stream = Option.none →
      stopWebcam s =
        { s with webcamSrcObject :=
            if s.videoElement then Option.none else s.webcamSrcObject }) := by
  have h : stopWebcam (stopWebcam s) = stopWebcam s := by
    simp only [stopWebcam]
    cases hs : s.stream <;> cases hv : s.videoElement <;> simp [hs, hv]
  refine ⟨h, by rw [h], by rw [h], by rw [h], ?_⟩
  intro hs
  obtain ⟨st, ve, sts, pe, so, wd, ps, pd, sd, cd, rd, im, al⟩ := s
  simp only at hs
  subst hs
  cases ve <;> simp [stopWebcam]

theorem stopWebcam_idempotent_witness :
    stopWebcam idle =
      { idle with webcamSrcObject :=
          if idle.videoElement then Option.none else idle.webcamSrcObject } :=
  (stopWebcam_idempotent idle).2.2.2.2 rfl

/-- C5: Start capture whose request is rejected shows one notification and
leaves the visibility of the video surface, the preview and the three
controls, the preview source, the hidden field and the held stream handle
as they were; a hidden video surface stays hidden and a visible start
control stays visible. -/
theorem start_rejected_keeps_ui (s : Widget) :
    (resolveRejected (startWebcam s)).alerts = s.alerts + 1 ∧
    (resolveRejected (startWebcam s)).webcamDisplay = s.webcamDisplay ∧
    (resolveRejected (startWebcam s)).previewDisplay = s.previewDisplay ∧
    (resolveRejected (startWebcam s)).startDisplay = s.startDisplay ∧
    (resolveRejected (startWebcam s)).captureDisplay = s.captureDisplay ∧
    (resolveRejected (startWebcam s)).retakeDisplay = s.retakeDisplay ∧
    (resolveRejected (startWebcam s)).previewSrc = s.previewSrc ∧
    (resolveRejected (startWebcam s)).imageData = s.imageData ∧
    (resolveRejected (startWebcam s)).stream = s.stream ∧
    (resolveRejected (startWebcam s)).streams = s.streams ∧
    (s.webcamDisplay = Display.none →
      (resolveRejected (startWebcam s)).webcamDisplay = Display.none) ∧
    (s.startDisplay = Display.block →
      (resolveRejected (startWebcam s)).startDisplay = Display.block) := by
  simp [resolveRejected, startWebcam, catchHandler]

theorem start_rejected_keeps_ui_witness :
    (resolveRejected (startWebcam idle)).webcamDisplay = Display.none ∧
    (resolveRejected (startWebcam idle)).startDisplay = Display.block :=
  ⟨(start_rejected_keeps_ui idle).2.2.2.2.2.2.2.2.2.2.1 rfl,
    (start_rejected_keeps_ui idle).2.2.2.2.2.2.2.2.2.2.2 rfl⟩

/-- C7: right after Retake the hidden field and the preview source are the
empty string, and they still are after the request that Retake issued has
been fulfilled or rejected; neither resolution writes either value, in any
state. -/
theorem retake_clears_capture (s : Widget) (tracks : Nat) :
    (retakeImage s).imageData = "" ∧ (retakeImage s).previewSrc = "" ∧
    (resolveFulfilled (retakeImage s) tracks).imageData = "" ∧
    (resolveFulfilled (retakeImage s) tracks).previewSrc = "" ∧
    (resolveRejected (retakeImage s)).imageData = "" ∧
    (resolveRejected (retakeImage s)).previewSrc = "" ∧
    (∀ t : Widget, (resolveFulfilled t tracks).imageData = t.imageData ∧
      (resolveFulfilled t tracks).previewSrc = t.previewSrc ∧
      (resolveRejected t).imageData = t.imageData ∧
      (resolveRejected t).previewSrc = t.previewSrc) := by
  have h : ∀ t : Widget, (resolveFulfilled t tracks).imageData = t.imageData ∧
      (resolveFulfilled t tracks).previewSrc = t.previewSrc ∧
      (resolveRejected t).imageData = t.imageData ∧
      (resolveRejected t).previewSrc = t.previewSrc := by
    intro t
    simp only [resolveFulfilled, resolveRejected, thenHandler, catchHandler]
    refine ⟨?_, ?_, ?_, ?_⟩ <;> split <;> try rfl
    all_goals split <;> rfl
  have h1 : (retakeImage s).imageData = "" := rfl
  have h2 : (retakeImage s).previewSrc = "" := rfl
  refine ⟨h1, h2, ?_, ?_, ?_, ?_, h⟩
  · rw [(h _).1, h1]
  · rw [(h _).2.1, h2]
  · rw [(h _).2.2.1, h1]
  · rw [(h _).2.2.2, h2]

/-- C8: fulfilling an outstanding request of Start capture stores the
delivered stream as the held handle, binds it to the video surface, shows the
video and the capture control, hides the preview, the start control and the
retake control, and leaves the hidden field and the preview source alone; so
of the video and the preview exactly the video is visible. -/
theorem start_fulfilled_shows_video (s : Widget) (tracks : Nat)
    (hreq : 0 < s.pending) (hvid : s.videoElement = true) :
    (resolveFulfilled s tracks).stream = some s.streams.length ∧
    (resolveFulfilled s tracks).streams[s.streams.length]? = some (freshStream tracks) ∧
    (resolveFulfilled s tracks).webcamSrcObject = some s.streams.length ∧
    (resolveFulfilled s tracks).webcamDisplay = Display.block ∧
    (resolveFulfilled s tracks).previewDisplay = Display.none ∧
    (resolveFulfilled s tracks).startDisplay = Display.none ∧
    (resolveFulfilled s tracks).captureDisplay = Display.block ∧
    (resolveFulfilled s tracks).retakeDisplay = Display.none ∧
    (resolveFulfilled s tracks).imageData = s.imageData ∧
    (resolveFulfilled s tracks).previewSrc = s.previewSrc := by
  have hp : s.pending ≠ 0 := Nat.pos_iff_ne_zero.mp hreq
  simp [resolveFulfilled, thenHandler, hp, hvid]

theorem start_fulfilled_shows_video_witness :
    (resolveFulfilled (startWebcam idle) 1).stream = some 0 ∧
    (resolveFulfilled (startWebcam idle) 1).webcamDisplay = Display.block ∧
    (resolveFulfilled (startWebcam idle) 1).previewDisplay = Display.none :=
  ⟨(start_fulfilled_shows_video (startWebcam idle) 1 (by decide) rfl).1,
    (start_fulfilled_shows_video (startWebcam idle) 1 (by decide) rfl).2.2.2.1,
    (start_fulfilled_shows_video (startWebcam idle) 1 (by decide) rfl).2.2.2.2.1⟩

/-- C6: when the video displays a frame of non-zero width and height, Capture
frame ends with the preview visible, the video hidden, the capture control
hidden and the retake control visible; the hidden field and the preview
source both hold the data URL of that frame at the dimensions of the video,
which starts with the JPEG data-URL prefix, is not empty and does not depend
on what the hidden field held before; after Capture, Retake, Capture the
hidden field holds the data of the second capture. -/
theorem capture_selects_frame (enc : Encoder) (s : Widget) (video : VideoFrame)
    (hw : 0 < video.videoWidth) (hh : 0 < video.videoHeight) :
    (captureImage enc s video).previewDisplay = Display.block ∧
    (captureImage enc s video).webcamDisplay = Display.none ∧
    (captureImage enc s video).captureDisplay = Display.none ∧
    (captureImage enc s video).retakeDisplay = Display.block ∧
    (captureImage enc s video).imageData =
      toDataURL enc
        { width := video.videoWidth, height := video.videoHeight, bitmap := video.pixels } ∧
    (captureImage enc s video).previewSrc = (captureImage enc s video).imageData ∧
    (captureImage enc s video).imageData =
      "data:image/jpeg;base64," ++ enc video.videoWidth video.videoHeight video.pixels ∧
    (captureImage enc s video).imageData ≠ "" ∧
    (∀ old : String,
      (captureImage enc { s with imageData := old } video).imageData =
        (captureImage enc s video).imageData) ∧
    (∀ first : VideoFrame,
      (captureImage enc (retakeImage (captureImage enc s first)) video).imageData =
        toDataURL enc (drawImage video)) := by
  have hval : ∀ t : Widget,
      (captureImage enc t video).imageData = toDataURL enc (drawImage video) := by
    intro t
    simp only [captureImage, captureWrites, stopWebcam]
    cases t.stream <;> simp only [] <;> split <;> rfl
  have hurl : toDataURL enc (drawImage video) =
      "data:image/jpeg;base64," ++ enc video.videoWidth video.videoHeight video.pixels := by
    have h1 : video.videoWidth ≠ 0 := Nat.pos_iff_ne_zero.mp hw
    have h2 : video.videoHeight ≠ 0 := Nat.pos_iff_ne_zero.mp hh
    simp [toDataURL, drawImage, h1, h2]
  have hne : "data:image/jpeg;base64," ++ enc video.videoWidth video.videoHeight video.pixels
      ≠ "" := by
    intro h
    have := congrArg String.length h
    simp [String.length_append] at this
    have h0 : ("data:image/jpeg;base64,").length = 23 := by decide
    omega
  refine ⟨?_, ?_, ?_, ?_, hval s, ?_, ?_, ?_, ?_, ?_⟩
  · simp only [captureImage, captureWrites, stopWebcam]
    cases s.stream <;> simp only [] <;> split <;> rfl
  · simp only [captureImage, captureWrites, stopWebcam]
    cases s.stream <;> simp only [] <;> split <;> rfl
  · simp only [captureImage, captureWrites, stopWebcam]
    cases s.stream <;> simp only [] <;> split <;> rfl
  · simp only [captureImage, captureWrites, stopWebcam]
    cases s.stream <;> simp only [] <;> split <;> rfl
  · simp only [captureImage, captureWrites, stopWebcam]
    cases s.stream <;> simp only [] <;> split <;> rfl
  · rw [hval s, hurl]
  · rw [hval s, hurl]; exact hne
  · intro old; rw [hval, hval]
  · intro first; rw [hval]

theorem capture_selects_frame_witness :
    (captureImage sampleEncoder idle sampleFrame).imageData = "data:image/jpeg;base64,Qg==" :=
  (capture_selects_frame sampleEncoder idle sampleFrame (by decide) (by decide)).2.2.2.2.2.2.1

/-- C9: when a stream acquired by Start capture is held, Capture frame stops
every track of that stream, releases the handle and unbinds the video
surface; the release is the last thing Capture frame does, after the frame
has been encoded and written, and it changes no visibility, nor the preview
source, nor the hidden field. -/
theorem capture_releases_stream (enc : Encoder) (s : Widget) (video : VideoFrame)
    (i : Nat) (hheld : s.stream = some i) (hacq : i < s.streams.length)
    (hvid : s.videoElement = true) :
    (∃ m : MediaStream, (captureImage enc s video).streams[i]? = some m ∧
      s.streams[i]?.map (fun x => x.tracks.length) = some m.tracks.length ∧
      ∀ t ∈ m.tracks, t.readyState = ReadyState.ended) ∧
    (captureImage enc s video).stream = Option.none ∧
    (captureImage enc s video).webcamSrcObject = Option.none ∧
    captureImage enc s video = stopWebcam (captureWrites enc s video) ∧
    (∀ t : Widget,
      (stopWebcam t).webcamDisplay = t.webcamDisplay ∧
      (stopWebcam t).previewDisplay = t.previewDisplay ∧
      (stopWebcam t).startDisplay = t.startDisplay ∧
      (stopWebcam t).captureDisplay = t.captureDisplay ∧
      (stopWebcam t).retakeDisplay = t.retakeDisplay ∧
      (stopWebcam t).previewSrc = t.previewSrc ∧
      (stopWebcam t).imageData = t.imageData) := by
  have hstreams : (captureImage enc s video).streams = stopAt s.streams i := by
    simp [captureImage, captureWrites, stopWebcam, hheld, hvid]
  refine ⟨?_, ?_, ?_, rfl, ?_⟩
  · obtain ⟨m0, hm0⟩ : ∃ m0, s.streams[i]? = some m0 :=
      ⟨s.streams[i], List.getElem?_eq_getElem hacq⟩
    refine ⟨m0.stopTracks, ?_, ?_, ?_⟩
    · rw [hstreams, getElem?_stopAt, hm0]; simp
    · rw [hm0]; simp [MediaStream.stopTracks]
    · intro t ht
      simp only [MediaStream.stopTracks, List.mem_map] at ht
      obtain ⟨t0, _, rfl⟩ := ht
      rfl
  · simp [captureImage, captureWrites, stopWebcam, hheld, hvid]
  · simp [captureImage, captureWrites, stopWebcam, hheld, hvid]
  · intro t
    simp only [stopWebcam]
    cases t.stream <;> simp only [] <;> split <;> simp

theorem capture_releases_stream_witness :
    (captureImage sampleEncoder (resolveFulfilled (startWebcam idle) 1) sampleFrame).stream
        = Option.none ∧
    (captureImage sampleEncoder (resolveFulfilled (startWebcam idle) 1)
        sampleFrame).webcamSrcObject = Option.none :=
  ⟨(capture_releases_stream sampleEncoder (resolveFulfilled (startWebcam idle) 1)
      sampleFrame 0 rfl (by decide) rfl).2.1,
    (capture_releases_stream sampleEncoder (resolveFulfilled (startWebcam idle) 1)
      sampleFrame 0 rfl (by decide) rfl).2.2.1⟩

/-- C10: from a state produced by Capture frame with the start control
hidden (no stream is held and the video is hidden then), Retake followed by a
rejected request ends with the capture control visible and the retake
control hidden, while no stream is held, the video and the preview are both
hidden and the start control is still hidden. -/
theorem retake_rejected_strands_controls (enc : Encoder) (s : Widget)
    (video : VideoFrame) (hstart : s.startDisplay = Display.none) :
    ((captureImage enc s video).stream = Option.none ∧
      (captureImage enc s video).startDisplay = Display.none ∧
      (captureImage enc s video).webcamDisplay = Display.none) ∧
    (resolveRejected (retakeImage (captureImage enc s video))).captureDisplay
      = Display.block ∧
    (resolveRejected (retakeImage (captureImage enc s video))).retakeDisplay
      = Display.none ∧
    (resolveRejected (retakeImage (captureImage enc s video))).stream = Option.none ∧
    (resolveRejected (retakeImage (captureImage enc s video))).webcamDisplay
      = Display.none ∧
    (resolveRejected (retakeImage (captureImage enc s video))).previewDisplay
      = Display.none ∧
    (resolveRejected (retakeImage (captureImage enc s video))).startDisplay
      = Display.none ∧
    (resolveRejected (retakeImage (captureImage enc s video))).alerts = s.alerts + 1 := by
  have hcap : (captureImage enc s video).stream = Option.none ∧
      (captureImage enc s video).startDisplay = Display.none ∧
      (captureImage enc s video).webcamDisplay = Display.none ∧
      (captureImage enc s video).alerts = s.alerts := by
    simp only [captureImage, captureWrites, stopWebcam]
    cases s.stream <;> simp only [] <;> split <;> simp [hstart]
  obtain ⟨h1, h2, h3, h4⟩ := hcap
  refine ⟨⟨h1, h2, h3⟩, ?_⟩
  simp [resolveRejected, retakeImage, startWebcam, catchHandler, h1, h2, h3, h4]

theorem retake_rejected_strands_controls_witness :
    (resolveRejected (retakeImage (captureImage sampleEncoder
        (resolveFulfilled (startWebcam idle) 1) sampleFrame))).captureDisplay
      = Display.block ∧
    (resolveRejected (retakeImage (captureImage sampleEncoder
        (resolveFulfilled (startWebcam idle) 1) sampleFrame))).startDisplay
      = Display.none :=
  ⟨(retake_rejected_strands_controls sampleEncoder
      (resolveFulfilled (startWebcam idle) 1) sampleFrame rfl).2.1,
    (retake_rejected_strands_controls sampleEncoder
      (resolveFulfilled (startWebcam idle) 1) sampleFrame rfl).2.2.2.2.2.2.1⟩

/-- C1, as stated, fails: two calls of Start capture followed by two
fulfilled requests leave two live streams, the first of which is no longer
held. -/
theorem two_live_streams_after_double_start :
    idle.stream = Option.none ∧ idle.webcamDisplay = Display.none ∧
    idle.previewDisplay = Display.none ∧ idle.imageData = "" ∧
    liveStreams (run sampleEncoder idle
      [Event.start, Event.start, Event.resolveOk 1, Event.resolveOk 1]) = 2 ∧
    (run sampleEncoder idle
      [Event.start, Event.start, Event.resolveOk 1, Event.resolveOk 1]).stream = some 1 := by
  decide

/-- C1, amended: from a state with no stream held, no request outstanding and
no live stream, every sequence of events in which Start capture and Retake
are called only while no request is outstanding and no stream is held leads
to a state with at most one live stream. -/
theorem at_most_one_live_stream (enc : Encoder) (s : Widget) (events : List Event)
    (hstream : s.stream = Option.none) (hpending : s.pending = 0)
    (hlive : liveStreams s = 0)
    (hguard : startsWhenReleased enc s events = true) :
    liveStreams (run enc s events) ≤ 1 := by
  have key : ∀ (es : List Event) (t : Widget), LiveIsHeld t →
      startsWhenReleased enc t es = true → LiveIsHeld (run enc t es) := by
    intro es
    induction es with
    | nil => intro t ht _; simpa [run_nil] using ht
    | cons e es ih =>
      intro t ht hg
      rw [run_cons]
      simp only [startsWhenReleased, Bool.and_eq_true] at hg
      exact ih _ (step_liveIsHeld enc t e ht hg.1) hg.2
  apply liveStreams_le_one
  apply key events s _ hguard
  refine ⟨by omega, fun _ => hstream, ?_⟩
  intro j m hj hm
  exfalso
  have hmem : m ∈ s.streams := List.getElem?_mem hj
  have h0 := List.countP_eq_zero.mp hlive m hmem
  exact h0 hm

theorem at_most_one_live_stream_witness :
    liveStreams (run sampleEncoder idle
      [Event.start, Event.resolveOk 1, Event.capture sampleFrame, Event.retake,
        Event.resolveOk 1]) ≤ 1 :=
  at_most_one_live_stream sampleEncoder idle _ rfl rfl (by decide) (by decide)

/-- C3, as stated, fails: when Start capture has been called twice, the
second request may be fulfilled after a frame has been captured; the hidden
field is filled then, while the video is visible and the preview hidden. -/
theorem filled_field_with_live_video :
    idle.imageData = "" ∧
    (run sampleEncoder idle
      [Event.start, Event.start, Event.resolveOk 1, Event.capture sampleFrame,
        Event.resolveOk 1]).imageData = "data:image/jpeg;base64,Qg==" ∧
    (run sampleEncoder idle
      [Event.start, Event.start, Event.resolveOk 1, Event.capture sampleFrame,
        Event.resolveOk 1]).imageData ≠ "" ∧
    (run sampleEncoder idle
      [Event.start, Event.start, Event.resolveOk 1, Event.capture sampleFrame,
        Event.resolveOk 1]).previewDisplay = Display.none ∧
    (run sampleEncoder idle
      [Event.start, Event.start, Event.resolveOk 1, Event.capture sampleFrame,
        Event.resolveOk 1]).webcamDisplay = Display.block := by
  decide

/-- C3, amended: from a state with the hidden field empty, every sequence of
events in which Start capture is called only while the hidden field is empty
and Capture frame only while no request is outstanding leads to a state in
which a filled hidden field goes with a visible preview and a hidden video. -/
theorem filled_field_means_preview (enc : Encoder) (s : Widget) (events : List Event)
    (hempty : s.imageData = "")
    (hguard : capturesWhenSettled enc s events = true) :
    (run enc s events).imageData ≠ "" →
      (run enc s events).previewDisplay = Display.block ∧
      (run enc s events).webcamDisplay = Display.none := by
  have key : ∀ (es : List Event) (t : Widget), CaptureIsSelected t →
      capturesWhenSettled enc t es = true → CaptureIsSelected (run enc t es) := by
    intro es
    induction es with
    | nil => intro t ht _; simpa [run_nil] using ht
    | cons e es ih =>
      intro t ht hg
      rw [run_cons]
      simp only [capturesWhenSettled, Bool.and_eq_true] at hg
      exact ih _ (step_captureIsSelected enc t e ht hg.1) hg.2
  intro hne
  have h := key events s (fun h => absurd hempty h) hguard hne
  exact ⟨h.1, h.2.1⟩

theorem filled_field_means_preview_witness :
    (run sampleEncoder idle
      [Event.start, Event.resolveOk 1, Event.capture sampleFrame]).previewDisplay
        = Display.block ∧
    (run sampleEncoder idle
      [Event.start, Event.resolveOk 1, Event.capture sampleFrame]).webcamDisplay
        = Display.none :=
  filled_field_means_preview sampleEncoder idle
    [Event.start, Event.resolveOk 1, Event.capture sampleFrame] rfl (by decide) (by decide)

end Webcam
